import Mathlib

/-!
Verification of the CarveDrifters simulation core against its specification.

The JavaScript sources are shallowly embedded over `ℝ` (JS numbers are IEEE
doubles; we model the real-number semantics of the arithmetic, which is the
reading the specification itself uses).  Rendering-only state (graphics
handles, trail particles, colors, silhouette types) carries no gameplay
information and is omitted from the embedded records; every gameplay field
and every arithmetic step is carried over verbatim from the sources.

Sources embedded:
  * src/config/constants.js            — the configuration constants
  * src/entities/Tree.js               — obstacle lifecycle
  * src/entities/Player.js             — board physics
  * src/managers/InputManager.js       — dual-foot input smoothing
  * src/utils/PerspectiveGrid.js       — lane/depth projection
  * src/scenes/GameScene.js            — per-frame driver, spawn, scoring

`Math.random()` draws and the raw key state are passed in as explicit
parameters, so each per-frame function is a deterministic function of its
inputs, exactly as the sources are once the draws are fixed.
-/

namespace CarveDrifters

noncomputable section

open scoped Classical

/-! ## Constants (src/config/constants.js) -/

def GAME_WIDTH : ℝ := 1200
def GAME_HEIGHT : ℝ := 800

def GRAVITY : ℝ := 0.8
def FRICTION_PARALLEL : ℝ := 0.995
def FRICTION_PERPENDICULAR : ℝ := 0.88
def MAX_SPEED : ℝ := 28
def MIN_SPEED : ℝ := 2

def BOARD_LENGTH : ℝ := 140
def MAX_LEG_EXTENSION : ℝ := 50
def MIN_FEET_DISTANCE : ℝ := 80
def LEG_SPRING_STRENGTH : ℝ := 0.08
def LEG_DAMPING : ℝ := 0.90

def INPUT_SENSITIVITY : ℝ := 1.8
def DEAD_ZONE : ℝ := 0.1
def MAX_INPUT : ℝ := 50

def TREE_MIN_SIZE : ℝ := 40
def TREE_MAX_SIZE : ℝ := 120
def TREE_SPAWN_RATE : ℝ := 0.005
def TREE_MAX_ON_SCREEN : ℕ := 15
def TREE_BASE_SPEED : ℝ := 1.5
def TREE_SPEED_MULTIPLIER : ℝ := 1.5
def TREE_START_DEPTH : ℝ := 0.1
def TREE_MAX_DEPTH : ℝ := 2.0

def DEPTH_SCALE_MIN : ℝ := 0.2
def DEPTH_SCALE_MAX : ℝ := 1.5
def DEPTH_SPEED_CURVE : ℝ := 1.8

def GRID_COLUMNS : ℝ := 9
def GRID_WIDTH_NEAR : ℝ := 800
def GRID_WIDTH_FAR : ℝ := 200
def PLAYER_LANE_SHIFT_SPEED : ℝ := 0.03

def DISTANCE_SCORE_RATE : ℝ := 0.1
def STYLE_SCORE_MULTIPLIER : ℝ := 2.0

/-! ## Basic geometry -/

/-- A 2D vector, as the `{x, y}` objects of the sources. -/
structure Vec2 where
  x : ℝ
  y : ℝ

/-- `Math.atan2(y, x)`: the argument of the complex number `x + y·i`,
in `(-π, π]` with `atan2 0 0 = 0`, matching the JS function. -/
def atan2 (y x : ℝ) : ℝ := Complex.arg ⟨x, y⟩

/-! ## Tree (src/entities/Tree.js)

The obstacle record.  The current `GameScene.js` constructs trees on grid
lanes (`new Tree(this, lane, size, this.grid)`) and reads `tree.lane` and
`tree.getX()`; the `Tree.js` file shipped in the snapshot is the earlier
continuous-x variant, so the `lane` field and `getX` are modelled from the
spec (see `Tree.getX`).  All other fields and methods are verbatim from
`Tree.js`.  `color`/`type`/`offsetX`/`offsetY`/`visualX` are rendering-only
and omitted. -/

structure Tree where
  lane : ℤ
  baseSize : ℝ
  size : ℝ
  depth : ℝ
  alive : Bool
  scored : Bool

/-- `Tree.update(playerSpeed)` — Tree.js lines 45–68.  Advances `depth`
by `approachSpeed × 0.01 × (depth + 0.1)^DEPTH_SPEED_CURVE`, recomputes the
visual size, and kills the tree once `depth > TREE_MAX_DEPTH`. -/
def Tree.update (t : Tree) (playerSpeed : ℝ) : Tree :=
  if t.alive = false then t
  else
    let approachSpeed := TREE_BASE_SPEED + playerSpeed * TREE_SPEED_MULTIPLIER * 0.1
    let depth1 := t.depth + approachSpeed * 0.01 * (t.depth + 0.1) ^ DEPTH_SPEED_CURVE
    let scale := DEPTH_SCALE_MIN + (DEPTH_SCALE_MAX - DEPTH_SCALE_MIN) * min depth1 1
    { t with
      depth := depth1
      size := t.baseSize * scale
      alive := if depth1 > TREE_MAX_DEPTH then false else t.alive }

/-- `Tree.markScored()` — Tree.js lines 211–213. -/
def Tree.markScored (t : Tree) : Tree := { t with scored := true }

/-- `Tree.hasPlayerPassed()` — Tree.js lines 218–220:
`this.depth > 0.9 && !this.scored`. -/
def Tree.hasPlayerPassed (t : Tree) : Prop := t.depth > 0.9 ∧ t.scored = false

/-- `Tree.getY()` — Tree.js lines 85–93: map depth to a screen Y between the
top of the play area and just before the player, clamping depth at 1. -/
def Tree.getY (t : Tree) (screenHeight : ℝ) : ℝ :=
  let minY : ℝ := 100
  let maxY : ℝ := screenHeight - 150
  minY + (maxY - minY) * min t.depth 1

/-- The tree a spawn produces — Tree.js constructor lines 7–27 as called by
`GameScene.spawnTree`: `size = baseSize`, `depth = TREE_START_DEPTH`,
`alive = true`, `scored = false`.  The `lane` field is modelled from the
spec ("Obstacle — lane (integer index into the perspective grid)"). -/
def Tree.spawned (lane : ℤ) (baseSize : ℝ) : Tree :=
  { lane := lane, baseSize := baseSize, size := baseSize,
    depth := TREE_START_DEPTH, alive := true, scored := false }

/-! ## PerspectiveGrid (src/utils/PerspectiveGrid.js) -/

structure PerspectiveGrid where
  screenWidth : ℝ
  screenHeight : ℝ
  playerLaneOffset : ℝ

/-- `this.centerX = screenWidth / 2` — PerspectiveGrid.js line 11. -/
def PerspectiveGrid.centerX (g : PerspectiveGrid) : ℝ := g.screenWidth / 2

/-- `PerspectiveGrid.getLaneX(lane, depth)` — PerspectiveGrid.js lines 23–37.
Grid width interpolates with the raw depth; lane spacing divides it among
`GRID_COLUMNS - 1` gaps; the lane is taken relative to `playerLaneOffset`. -/
def PerspectiveGrid.getLaneX (g : PerspectiveGrid) (lane depth : ℝ) : ℝ :=
  let gridWidth := GRID_WIDTH_FAR + (GRID_WIDTH_NEAR - GRID_WIDTH_FAR) * depth
  let laneSpacing := gridWidth / (GRID_COLUMNS - 1)
  let relativeLane := lane - g.playerLaneOffset
  g.centerX + relativeLane * laneSpacing

/-- The spec's wording of the lane projection, for comparison with the code's
`getLaneX`: "interpolate grid width linearly … using depth in [0,1] (depth
above 1 clamps to 1 for width purposes)". -/
def PerspectiveGrid.getLaneXSpec (g : PerspectiveGrid) (lane depth : ℝ) : ℝ :=
  let gridWidth := GRID_WIDTH_FAR + (GRID_WIDTH_NEAR - GRID_WIDTH_FAR) * min depth 1
  let laneSpacing := gridWidth / (GRID_COLUMNS - 1)
  let relativeLane := lane - g.playerLaneOffset
  g.centerX + relativeLane * laneSpacing

/-- `PerspectiveGrid.updatePlayerLane(boardAngle, velocity)` —
PerspectiveGrid.js lines 56–66: `offset += cos(angle) × velocity ×
PLAYER_LANE_SHIFT_SPEED`, unbounded. -/
def PerspectiveGrid.updatePlayerLane (g : PerspectiveGrid)
    (boardAngle velocity : ℝ) : PerspectiveGrid :=
  { g with playerLaneOffset :=
      g.playerLaneOffset + Real.cos boardAngle * velocity * PLAYER_LANE_SHIFT_SPEED }

/-- `PerspectiveGrid.reset()` — PerspectiveGrid.js lines 95–97. -/
def PerspectiveGrid.reset (g : PerspectiveGrid) : PerspectiveGrid :=
  { g with playerLaneOffset := 0 }

/-- Modelled from the spec: the lane-based `Tree.getX()` is called by
`Player.checkTreeCollision` and constructed by the current `GameScene.js`,
but is absent from the `Tree.js` file in the snapshot (the shipped file is
the earlier continuous-x variant).  The spec gives the projection:
"Screen-x = centerX + (lane − playerLaneOffset) × laneSpacing". -/
def Tree.getX (t : Tree) (g : PerspectiveGrid) : ℝ :=
  g.getLaneX (t.lane : ℝ) t.depth

/-! ## Player (src/entities/Player.js) -/

structure Player where
  x : ℝ
  y : ℝ
  leftFoot : Vec2
  rightFoot : Vec2
  velocity : ℝ
  angle : ℝ
  alive : Bool
  carvingAmount : ℝ
  stoppedFrames : ℕ

/-- The smoothed foot positions `InputManager.update()` returns each frame. -/
structure InputState where
  leftFoot : Vec2
  rightFoot : Vec2

/-- `Player.update(inputState)` — Player.js lines 39–93.  Feet come from the
input state; the board angle is `atan2` of their difference; alignment with
straight-down (π/2) selects acceleration or the friction blend; the result
is clamped to `[MIN_SPEED, MAX_SPEED]`; the stall counter tracks frames near
minimum speed (the stall game-over itself is commented out in the source).
The trail push is rendering-only and omitted. -/
def Player.update (p : Player) (input : InputState) : Player :=
  if p.alive = false then p
  else
    let leftFoot := input.leftFoot
    let rightFoot := input.rightFoot
    let dx := rightFoot.x - leftFoot.x
    let dy := rightFoot.y - leftFoot.y
    let angle := atan2 dy dx
    let downAngle := Real.pi / 2
    let angleDiff := |angle - downAngle|
    let alignment := 1 - min (angleDiff / (Real.pi / 2)) 1
    let velocity1 :=
      if alignment > 0.7 then
        p.velocity + GRAVITY * alignment
      else
        p.velocity *
          (FRICTION_PERPENDICULAR +
            (FRICTION_PARALLEL - FRICTION_PERPENDICULAR) * alignment)
    let velocity2 := max MIN_SPEED (min MAX_SPEED velocity1)
    { p with
      leftFoot := leftFoot
      rightFoot := rightFoot
      angle := angle
      carvingAmount := 1 - alignment
      velocity := velocity2
      stoppedFrames :=
        if velocity2 < MIN_SPEED * 1.5 then p.stoppedFrames + 1 else 0 }

/-- `Player.getCarvingBonus()` — Player.js lines 257–259. -/
def Player.getCarvingBonus (p : Player) : ℝ :=
  if p.carvingAmount > 0.5 then STYLE_SCORE_MULTIPLIER else 1.0

/-- `Player.checkTreeCollision(tree)` — Player.js lines 234–245: false for a
dead player, else a circle test of the distance from the player to the
tree's screen position against `BOARD_LENGTH/2 + size × depth × 0.4`.
`tree.getX()` needs the grid (see `Tree.getX`), passed explicitly here. -/
def Player.checkTreeCollision (p : Player) (g : PerspectiveGrid) (t : Tree) : Prop :=
  p.alive = true ∧
    Real.sqrt ((p.x - t.getX g) ^ 2 + (p.y - t.getY g.screenHeight) ^ 2) <
      BOARD_LENGTH / 2 + t.size * t.depth * 0.4

/-- `Player.destroy(reason)` — Player.js lines 264–267 (the emitted
`playerDestroyed` event is handled by `GameScene.onPlayerDestroyed`, which
clears `gameActive`; `treeStep` below applies both effects). -/
def Player.destroy (p : Player) : Player := { p with alive := false }

/-! ## InputManager (src/managers/InputManager.js) -/

structure InputManager where
  leftFoot : Vec2
  rightFoot : Vec2
  leftVelocity : Vec2
  rightVelocity : Vec2

/-- `this.leftFootHome` — InputManager.js line 12. -/
def leftFootHome : Vec2 := ⟨-(BOARD_LENGTH / 3), 0⟩

/-- `this.rightFootHome` — InputManager.js line 13. -/
def rightFootHome : Vec2 := ⟨BOARD_LENGTH / 3, 0⟩

/-- The spring/damping/integration stage for one foot — InputManager.js
lines 52–88 (each foot is independent there): above the dead zone the
velocity accumulates toward `input × INPUT_SENSITIVITY × MAX_INPUT`,
otherwise it is zeroed; then damping, then position integration.
Returns (new position, new velocity). -/
def springFoot (foot vel input : Vec2) : Vec2 × Vec2 :=
  let mag := Real.sqrt (input.x ^ 2 + input.y ^ 2)
  let vel1 :=
    if mag > DEAD_ZONE then
      Vec2.mk
        (vel.x + (input.x * INPUT_SENSITIVITY * MAX_INPUT - foot.x) * LEG_SPRING_STRENGTH)
        (vel.y + (input.y * INPUT_SENSITIVITY * MAX_INPUT - foot.y) * LEG_SPRING_STRENGTH)
    else Vec2.mk 0 0
  let vel2 := Vec2.mk (vel1.x * LEG_DAMPING) (vel1.y * LEG_DAMPING)
  (Vec2.mk (foot.x + vel2.x) (foot.y + vel2.y), vel2)

/-- The max-extension clamp for one foot — InputManager.js lines 91–101:
rescale to length `MAX_LEG_EXTENSION` when the distance from the board
center exceeds it. -/
def clampFoot (f : Vec2) : Vec2 :=
  let dist := Real.sqrt (f.x ^ 2 + f.y ^ 2)
  if dist > MAX_LEG_EXTENSION then
    Vec2.mk (f.x / dist * MAX_LEG_EXTENSION) (f.y / dist * MAX_LEG_EXTENSION)
  else f

/-- The distance between the two feet, as InputManager.js computes it. -/
def feetDist (lf rf : Vec2) : ℝ :=
  Real.sqrt ((rf.x - lf.x) ^ 2 + (rf.y - lf.y) ^ 2)

/-- The minimum-separation push — InputManager.js lines 104–115: when the
feet are closer than `MIN_FEET_DISTANCE` (and not coincident), push both
apart along the joining line by half the deficit each. -/
def enforceMinDistance (lf rf : Vec2) : Vec2 × Vec2 :=
  let dx := rf.x - lf.x
  let dy := rf.y - lf.y
  let dist := feetDist lf rf
  if dist < MIN_FEET_DISTANCE ∧ dist > 0 then
    let pushX := dx / dist * (MIN_FEET_DISTANCE - dist) * 0.5
    let pushY := dy / dist * (MIN_FEET_DISTANCE - dist) * 0.5
    (Vec2.mk (lf.x - pushX) (lf.y - pushY), Vec2.mk (rf.x + pushX) (rf.y + pushY))
  else (lf, rf)

/-- `InputManager.update()` — InputManager.js lines 41–121: spring stage for
each foot, then the max-extension clamp, then the minimum-separation push,
in that order. -/
def InputManager.update (m : InputManager) (leftInput rightInput : Vec2) :
    InputManager :=
  let left1 := springFoot m.leftFoot m.leftVelocity leftInput
  let right1 := springFoot m.rightFoot m.rightVelocity rightInput
  let lf2 := clampFoot left1.1
  let rf2 := clampFoot right1.1
  let pushed := enforceMinDistance lf2 rf2
  { leftFoot := pushed.1, rightFoot := pushed.2,
    leftVelocity := left1.2, rightVelocity := right1.2 }

/-- `InputManager.reset()` — InputManager.js lines 161–166. -/
def InputManager.reset (_ : InputManager) : InputManager :=
  { leftFoot := leftFootHome, rightFoot := rightFootHome,
    leftVelocity := ⟨0, 0⟩, rightVelocity := ⟨0, 0⟩ }

/-! ## GameScene (src/scenes/GameScene.js) -/

structure GameState where
  gameActive : Bool
  score : ℝ
  distance : ℝ
  frameCount : ℕ
  grid : PerspectiveGrid
  player : Player
  inputManager : InputManager
  trees : List Tree

/-- `GameScene.spawnTree()` — GameScene.js lines 83–97, with the random lane
and size passed in.  The spawn is skipped when some tree already occupies
the lane at far depth (`tree.lane === lane && tree.depth < 0.3`). -/
def GameScene.spawnTree (trees : List Tree) (lane : ℤ) (size : ℝ) : List Tree :=
  if ∃ t ∈ trees, t.lane = lane ∧ t.depth < 0.3 then trees
  else trees ++ [Tree.spawned lane size]

/-- The dead-tree filter — GameScene.js line 166:
`this.trees = this.trees.filter(tree => tree.alive)`. -/
def removeDeadTrees (trees : List Tree) : List Tree :=
  trees.filter (fun t => t.alive)

/-- The running state of the `this.trees.forEach(...)` loop of
`GameScene.update` (lines 149–163): the scene fields it mutates, plus the
trees processed so far. -/
structure LoopCtx where
  gameActive : Bool
  player : Player
  score : ℝ
  trees : List Tree

/-- One iteration of the tree loop — GameScene.js lines 149–163: update the
tree with the player's velocity; on `checkTreeCollision && depth > 0.7`
destroy the player (which synchronously fires `playerDestroyed`, clearing
`gameActive`); then, if the updated tree passes `hasPlayerPassed`, mark it
scored and add `10 × getCarvingBonus()` to the score. -/
def treeStep (g : PerspectiveGrid) (c : LoopCtx) (t : Tree) : LoopCtx :=
  let t1 := t.update c.player.velocity
  let hit := c.player.checkTreeCollision g t1 ∧ t1.depth > 0.7
  let p1 := if hit then c.player.destroy else c.player
  let active1 := if hit then false else c.gameActive
  if t1.hasPlayerPassed then
    { gameActive := active1, player := p1,
      score := c.score + 10 * p1.getCarvingBonus,
      trees := c.trees ++ [t1.markScored] }
  else
    { gameActive := active1, player := p1, score := c.score,
      trees := c.trees ++ [t1] }

/-- The per-frame inputs of `GameScene.update` that come from outside the
simulation: the raw key vectors, the restart key, and the frame's
`Math.random()` draws for the two possible spawn attempts. -/
structure FrameInput where
  spacePressed : Bool
  leftInput : Vec2
  rightInput : Vec2
  spawnRand : ℝ
  spawnLane1 : ℤ
  spawnSize1 : ℝ
  spawnLane2 : ℤ
  spawnSize2 : ℝ
  resetSpawns : List (ℤ × ℝ)

/-- The spawn loop of `GameScene.create`/`resetGame` (`for i in 0..7:
spawnTree()`), with the eight random (lane, size) draws passed as a list. -/
def spawnBatch (spawns : List (ℤ × ℝ)) (trees : List Tree) : List Tree :=
  spawns.foldl (fun ts ls => GameScene.spawnTree ts ls.1 ls.2) trees

/-- `GameScene.resetGame()` — GameScene.js lines 314–340: reactivate, zero
the counters, reset the grid and the input manager, reposition the player's
board center, clear the trees and run the 8-iteration spawn loop.  The
source never calls `Player.reset()` here: every other player field
(`velocity`, `angle`, `alive`, `carvingAmount`, `stoppedFrames`, feet)
keeps its pre-reset value. -/
def GameScene.resetGame (s : GameState) (spawns : List (ℤ × ℝ)) : GameState :=
  { gameActive := true
    score := 0
    distance := 0
    frameCount := 0
    grid := s.grid.reset
    player := { s.player with x := s.grid.screenWidth / 2, y := s.grid.screenHeight - 100 }
    inputManager := s.inputManager.reset
    trees := spawnBatch spawns [] }

/-- `GameScene.update()` — GameScene.js lines 102–192.  Inactive frames only
watch for the restart key.  Active frames run input smoothing, board
physics, the grid lane shift, the tree loop (collisions and pass scoring),
the dead-tree filter, the rate-gated and minimum-count spawn attempts, and
the distance/score accrual.  Debug/HUD events, snow particles and drawing
are presentation-only and omitted. -/
def GameScene.update (s : GameState) (inp : FrameInput) : GameState :=
  if s.gameActive = false then
    if inp.spacePressed then GameScene.resetGame s inp.resetSpawns else s
  else
    let m1 := s.inputManager.update inp.leftInput inp.rightInput
    let p1 := s.player.update ⟨m1.leftFoot, m1.rightFoot⟩
    let g1 := s.grid.updatePlayerLane p1.angle p1.velocity
    let c1 := s.trees.foldl (treeStep g1) ⟨s.gameActive, p1, s.score, []⟩
    let trees1 := removeDeadTrees c1.trees
    let trees2 :=
      if inp.spawnRand < TREE_SPAWN_RATE ∧ trees1.length < TREE_MAX_ON_SCREEN then
        GameScene.spawnTree trees1 inp.spawnLane1 inp.spawnSize1
      else trees1
    let trees3 :=
      if trees2.length < 6 then GameScene.spawnTree trees2 inp.spawnLane2 inp.spawnSize2
      else trees2
    { gameActive := c1.gameActive
      score := c1.score + c1.player.velocity * DISTANCE_SCORE_RATE * c1.player.getCarvingBonus
      distance := s.distance + c1.player.velocity * DISTANCE_SCORE_RATE
      frameCount := s.frameCount + 1
      grid := g1
      player := c1.player
      inputManager := m1
      trees := trees3 }

/-! ## Concrete example states used to instantiate the theorems -/

/-- The grid as `GameScene.create` builds it for a 1200×800 screen. -/
def gEx : PerspectiveGrid := ⟨1200, 800, 0⟩

/-- An alive player at the screen position `GameScene.create` assigns
(`(width/2, height-100)`), pointing straight down-slope. -/
def pAliveEx : Player :=
  ⟨600, 700, ⟨0, -40⟩, ⟨0, 40⟩, 10, Real.pi / 2, true, 0, 0⟩

/-- The raw smoothed-foot input for a straight-down board. -/
def inputEx : InputState := ⟨⟨0, -40⟩, ⟨0, 40⟩⟩

/-- A freshly started tree one update away from the player scenario of the
spec: lane 0, `baseSize = 80`, `depth = 0.1`. -/
def tC2Ex : Tree := ⟨0, 80, 80, 0.1, true, false⟩

/-- A tree directly in the player's lane at depth 1, already scored — the
colliding tree of the C8 scenario. -/
def t1Ex : Tree := ⟨0, 80, 80, 1, true, true⟩

/-- A not-yet-scored tree at depth 0.92, about to cross the pass
threshold — the tree scored after the collision in the C8 scenario. -/
def t2Ex : Tree := ⟨3, 60, 60, 0.92, true, false⟩

/-- A dead player after a collision: `alive = false`, stale velocity, angle
and carving from the crash frame. -/
def pDeadEx : Player := ⟨600, 700, ⟨-30, 10⟩, ⟨35, -5⟩, 5, 1.2, false, 1, 7⟩

/-- The input manager's state at the crash frame. -/
def imEx : InputManager := ⟨⟨-30, 10⟩, ⟨35, -5⟩, ⟨1, 0⟩, ⟨0, 2⟩⟩

/-- The whole scene right after a collision ended the session. -/
def sDeadEx : GameState :=
  ⟨false, 345, 678, 900, ⟨1200, 800, 2.5⟩, pDeadEx, imEx, [t1Ex]⟩

/-- Eight random (lane, size) draws for a restart's spawn loop; the last
lane repeats the first, so its spawn request is rejected. -/
def resetSpawnsEx : List (ℤ × ℝ) :=
  [(1, 60), (2, 61), (3, 62), (4, 63), (-1, 64), (-2, 65), (-3, 66), (1, 67)]

/-- A frame input with the restart key up and no spawn-rate success. -/
def inpIdleEx : FrameInput := ⟨false, ⟨0, 0⟩, ⟨0, 0⟩, 0.5, 1, 50, 2, 60, []⟩

/-- The spec's collision scenario tree: `depth = 0.9`, `size = 100`, in the
player's lane.  Its screen position on `gEx` is (600, 595), distance 105
from the player — inside the radius `70 + 100·0.9·0.4 = 106`. -/
def t9NearEx : Tree := ⟨0, 100, 100, 0.9, true, false⟩

/-- The same scenario with the grid offset shifted so the tree's screen
distance becomes `107.06 = 106 × 1.01` — one percent outside the radius. -/
def g9FarEx : PerspectiveGrid := ⟨1200, 800, -(Real.sqrt 436.8436 / 92.5)⟩

/-! ## Theorems -/

/-- Claim C1: for every frame in which the player is alive, after the Board
Physics update (`Player.update`) the player's velocity satisfies
`MIN_SPEED ≤ velocity ≤ MAX_SPEED`, for every possible pair of foot
positions supplied as input. -/
theorem c1_velocity_clamped (p : Player) (input : InputState)
    (h : p.alive = true) :
    MIN_SPEED ≤ (p.update input).velocity ∧
      (p.update input).velocity ≤ MAX_SPEED := by
  simp only [Player.update, h]
  norm_num [MIN_SPEED, MAX_SPEED]

/-- Witness for C1 at a concrete alive player and input. -/
theorem c1_witness :
    MIN_SPEED ≤ (pAliveEx.update inputEx).velocity ∧
      (pAliveEx.update inputEx).velocity ≤ MAX_SPEED :=
  c1_velocity_clamped pAliveEx inputEx rfl

/-- Claim C2: one `Tree.update` step with player speed `v` changes the depth
of a live tree exactly by
`(TREE_BASE_SPEED + v·TREE_SPEED_MULTIPLIER·0.1) · 0.01 · (depth + 0.1)^DEPTH_SPEED_CURVE`. -/
theorem c2_depth_update_formula (t : Tree) (v : ℝ) (h : t.alive = true) :
    (t.update v).depth =
      t.depth + (TREE_BASE_SPEED + v * TREE_SPEED_MULTIPLIER * 0.1) * 0.01 *
        (t.depth + 0.1) ^ DEPTH_SPEED_CURVE := by
  simp [Tree.update, h]

/-- Witness for C2: the spec's scenario — a tree at `depth = 0.1`,
`baseSize = 80`, player speed 10 — lands exactly on
`0.1 + (1.5 + 10·1.5·0.1)·0.01·(0.1 + 0.1)^1.8`. -/
theorem c2_witness :
    (tC2Ex.update 10).depth =
      0.1 + (1.5 + 10 * 1.5 * 0.1) * 0.01 * ((0.1 + 0.1 : ℝ)) ^ (1.8 : ℝ) := by
  have h := c2_depth_update_formula tC2Ex 10 rfl
  simpa [tC2Ex, TREE_BASE_SPEED, TREE_SPEED_MULTIPLIER, DEPTH_SPEED_CURVE] using h

/-- `Tree.update` never touches the `scored` flag. -/
theorem Tree.update_scored (t : Tree) (v : ℝ) : (t.update v).scored = t.scored := by
  unfold Tree.update
  by_cases h : t.alive = false
  · rw [if_pos h]
  · rw [if_neg h]

/-- Any sequence of `Tree.update` steps preserves the `scored` flag. -/
theorem Tree.foldl_update_scored (vs : List ℝ) (t : Tree) :
    (vs.foldl Tree.update t).scored = t.scored := by
  induction vs generalizing t with
  | nil => rfl
  | cons v vs ih => rw [List.foldl_cons, ih, Tree.update_scored]

/-- Claim C3: for a live tree with non-negative depth and a non-negative
player speed, `Tree.update` never decreases the depth; the updated tree is
dead exactly when its depth exceeds `TREE_MAX_DEPTH`; and a dead tree is
never in the result of the per-frame dead-tree filter. -/
theorem c3_depth_monotone_and_expiry (t : Tree) (v : ℝ) (trees : List Tree)
    (hv : 0 ≤ v) (hd : 0 ≤ t.depth) (h : t.alive = true) :
    t.depth ≤ (t.update v).depth ∧
      ((t.update v).alive = false ↔ (t.update v).depth > TREE_MAX_DEPTH) ∧
      ((t.update v).alive = false → (t.update v) ∉ removeDeadTrees trees) := by
  have hpow : 0 ≤ (t.depth + 0.1) ^ DEPTH_SPEED_CURVE :=
    Real.rpow_nonneg (by linarith) _
  refine ⟨?_, ?_, ?_⟩
  · simp only [Tree.update, h, TREE_BASE_SPEED, TREE_SPEED_MULTIPLIER]
    norm_num
    nlinarith [hpow]
  · simp only [Tree.update, h]
    norm_num
  · intro hdead hmem
    rw [removeDeadTrees, List.mem_filter] at hmem
    rw [hdead] at hmem
    exact absurd hmem.2 (by simp)

/-- Witness for C3 at the concrete freshly spawned tree and speed 0. -/
theorem c3_witness :
    tC2Ex.depth ≤ (tC2Ex.update 0).depth ∧
      ((tC2Ex.update 0).alive = false ↔ (tC2Ex.update 0).depth > TREE_MAX_DEPTH) ∧
      ((tC2Ex.update 0).alive = false → (tC2Ex.update 0) ∉ removeDeadTrees []) :=
  c3_depth_monotone_and_expiry tC2Ex 0 [] (by norm_num) (by norm_num [tC2Ex]) rfl

/-- Claim C4: pass detection holds exactly when `depth > 0.9` and not yet
scored; `markScored` sets `scored` without touching `alive` or `depth`; no
update changes `scored`, so after `markScored` every later evaluation of
`hasPlayerPassed` is false (points at most once per tree); and the loop body
never drops a tree — scoring keeps it in the collection. -/
theorem c4_pass_scoring_idempotent :
    (∀ t : Tree, t.hasPlayerPassed ↔ t.depth > 0.9 ∧ t.scored = false) ∧
    (∀ t : Tree, t.markScored.scored = true ∧ t.markScored.alive = t.alive ∧
      t.markScored.depth = t.depth) ∧
    (∀ (t : Tree) (v : ℝ), (t.update v).scored = t.scored) ∧
    (∀ (t : Tree) (vs : List ℝ),
      ¬ (vs.foldl Tree.update t.markScored).hasPlayerPassed) ∧
    (∀ (g : PerspectiveGrid) (c : LoopCtx) (t : Tree),
      (treeStep g c t).trees.length = c.trees.length + 1) := by
  refine ⟨fun t => Iff.rfl, fun t => ⟨rfl, rfl, rfl⟩, Tree.update_scored, ?_, ?_⟩
  · intro t vs hpass
    have hsc : (vs.foldl Tree.update t.markScored).scored = true := by
      rw [Tree.foldl_update_scored]; rfl
    rw [Tree.hasPlayerPassed, hsc] at hpass
    exact absurd hpass.2 (by simp)
  · intro g c t
    simp only [treeStep]
    split_ifs <;> simp

/-- A spawn request on a free lane appends one freshly started tree. -/
theorem spawnTree_free (ts : List Tree) (lane : ℤ) (size : ℝ)
    (h : ¬ ∃ t ∈ ts, t.lane = lane ∧ t.depth < 0.3) :
    GameScene.spawnTree ts lane size = ts ++ [Tree.spawned lane size] := by
  rw [GameScene.spawnTree, if_neg h]

/-- A spawn request on an occupied lane leaves the collection unchanged. -/
theorem spawnTree_occupied (ts : List Tree) (lane : ℤ) (size : ℝ)
    (h : ∃ t ∈ ts, t.lane = lane ∧ t.depth < 0.3) :
    GameScene.spawnTree ts lane size = ts := by
  rw [GameScene.spawnTree, if_pos h]

/-- Claim C6: a spawn request for a lane already occupied by a tree with
`depth < 0.3` is rejected — `spawnTree` returns the collection unchanged and
the live obstacle count stays the same; and two spawn requests on the same
lane within the same far-depth window never both succeed (the second is
always a no-op, since a successful first spawn leaves a tree on that lane
at `TREE_START_DEPTH = 0.1 < 0.3`). -/
theorem c6_spawn_lane_rejection (trees : List Tree) (lane : ℤ) (size : ℝ)
    (h : ∃ t ∈ trees, t.lane = lane ∧ t.depth < 0.3) :
    GameScene.spawnTree trees lane size = trees ∧
      (GameScene.spawnTree trees lane size).length = trees.length ∧
      ∀ (ts : List Tree) (s1 s2 : ℝ),
        GameScene.spawnTree (GameScene.spawnTree ts lane s1) lane s2 =
          GameScene.spawnTree ts lane s1 := by
  refine ⟨spawnTree_occupied trees lane size h, ?_, ?_⟩
  · rw [spawnTree_occupied trees lane size h]
  · intro ts s1 s2
    by_cases hocc : ∃ t ∈ ts, t.lane = lane ∧ t.depth < 0.3
    · rw [spawnTree_occupied ts lane s1 hocc, spawnTree_occupied ts lane s2 hocc]
    · rw [spawnTree_free ts lane s1 hocc]
      refine spawnTree_occupied _ lane s2 ⟨Tree.spawned lane s1, ?_, rfl, ?_⟩
      · simp
      · norm_num [Tree.spawned, TREE_START_DEPTH]

/-- Witness for C6: a lane-2 tree at far depth blocks a lane-2 spawn. -/
theorem c6_witness :
    GameScene.spawnTree [Tree.spawned 2 50] 2 60 = [Tree.spawned 2 50] ∧
      (GameScene.spawnTree [Tree.spawned 2 50] 2 60).length = [Tree.spawned 2 50].length ∧
      ∀ (ts : List Tree) (s1 s2 : ℝ),
        GameScene.spawnTree (GameScene.spawnTree ts 2 s1) 2 s2 =
          GameScene.spawnTree ts 2 s1 :=
  c6_spawn_lane_rejection [Tree.spawned 2 50] 2 60
    ⟨Tree.spawned 2 50, by simp, rfl, by norm_num [Tree.spawned, TREE_START_DEPTH]⟩

/-- Claim C5 (code bug): `GameScene.resetGame` zeroes the counters, resets
the grid offset and the input manager's feet, and reactivates the session —
but it never calls `Player.reset()`: at a concrete post-collision state the
restarted player still has `alive = false` and its stale velocity, so
`Player.update` is a no-op on it (the board never runs again after a
restart); and with one repeated lane among the eight spawn draws the
repopulated obstacle set has 7 trees, not the batch size 8. -/
theorem c5_reset_leaves_player_dead :
    (GameScene.resetGame sDeadEx resetSpawnsEx).score = 0 ∧
    (GameScene.resetGame sDeadEx resetSpawnsEx).distance = 0 ∧
    (GameScene.resetGame sDeadEx resetSpawnsEx).grid.playerLaneOffset = 0 ∧
    (GameScene.resetGame sDeadEx resetSpawnsEx).inputManager.leftFoot = leftFootHome ∧
    (GameScene.resetGame sDeadEx resetSpawnsEx).inputManager.rightFoot = rightFootHome ∧
    (GameScene.resetGame sDeadEx resetSpawnsEx).gameActive = true ∧
    (GameScene.resetGame sDeadEx resetSpawnsEx).player.alive = false ∧
    (GameScene.resetGame sDeadEx resetSpawnsEx).player.velocity = 5 ∧
    (GameScene.resetGame sDeadEx resetSpawnsEx).player.update inputEx =
      (GameScene.resetGame sDeadEx resetSpawnsEx).player ∧
    (GameScene.resetGame sDeadEx resetSpawnsEx).trees.length = 7 := by
  refine ⟨rfl, rfl, rfl, rfl, rfl, rfl, rfl, rfl, ?_, ?_⟩
  · have hal : (GameScene.resetGame sDeadEx resetSpawnsEx).player.alive = false := rfl
    rw [Player.update, if_pos hal]
  · norm_num [GameScene.resetGame, spawnBatch, resetSpawnsEx, List.foldl,
      GameScene.spawnTree, Tree.spawned, TREE_START_DEPTH]

/-- Claim C7 (corrected): the code's `getLaneX` uses the raw depth in the
width interpolation — it does not clamp depth above 1. -/
theorem c7_laneX_formula (g : PerspectiveGrid) (lane depth : ℝ) :
    g.getLaneX lane depth =
      g.centerX + (lane - g.playerLaneOffset) *
        ((GRID_WIDTH_FAR + (GRID_WIDTH_NEAR - GRID_WIDTH_FAR) * depth) /
          (GRID_COLUMNS - 1)) ∧
    (depth ≤ 1 → g.getLaneX lane depth = g.getLaneXSpec lane depth) := by
  refine ⟨rfl, fun hle => ?_⟩
  rw [PerspectiveGrid.getLaneX, PerspectiveGrid.getLaneXSpec, min_eq_left hle]

/-- Counterexample for C7 as stated: at depth 2 the code's projection
(`getLaneX`, raw depth) and the spec's clamped-width projection disagree
on the standard 1200-wide grid — 775 against 700 for lane 1. -/
theorem c7_counterexample :
    gEx.getLaneX 1 2 = 775 ∧ gEx.getLaneXSpec 1 2 = 700 ∧
      gEx.getLaneX 1 2 ≠ gEx.getLaneXSpec 1 2 := by
  norm_num [PerspectiveGrid.getLaneX, PerspectiveGrid.getLaneXSpec,
    PerspectiveGrid.centerX, gEx, GRID_WIDTH_FAR, GRID_WIDTH_NEAR, GRID_COLUMNS,
    min_def]

/-- Evaluation of a real square power. -/
theorem rpow_two_eval (x : ℝ) : x ^ (2 : ℝ) = x * x := by
  rw [show (2 : ℝ) = ((2 : ℕ) : ℝ) by norm_num, Real.rpow_natCast]
  ring

/-- `1 < 1.1 ^ 1.8`. -/
theorem one_lt_rpow_C8 : (1 : ℝ) < (1.1 : ℝ) ^ (1.8 : ℝ) :=
  (Real.one_lt_rpow_iff_of_pos (by norm_num)).mpr
    (Or.inl ⟨by norm_num, by norm_num⟩)

/-- `1.1 ^ 1.8 ≤ 1.21`. -/
theorem rpow_ub_C8 : (1.1 : ℝ) ^ (1.8 : ℝ) ≤ 1.21 := by
  have h := Real.rpow_le_rpow_of_exponent_le
    (by norm_num : (1 : ℝ) ≤ 1.1) (by norm_num : (1.8 : ℝ) ≤ 2)
  rw [rpow_two_eval] at h
  linarith

/-- `0 ≤ 1.02 ^ 1.8`. -/
theorem rpow_nonneg_C8 : (0 : ℝ) ≤ (1.02 : ℝ) ^ (1.8 : ℝ) :=
  Real.rpow_nonneg (by norm_num) _

/-- `1.02 ^ 1.8 ≤ 1.0404`. -/
theorem rpow_ub2_C8 : (1.02 : ℝ) ^ (1.8 : ℝ) ≤ 1.0404 := by
  have h := Real.rpow_le_rpow_of_exponent_le
    (by norm_num : (1 : ℝ) ≤ 1.02) (by norm_num : (1.8 : ℝ) ≤ 2)
  rw [rpow_two_eval] at h
  linarith

/-- `Tree.update` never changes the lane. -/
theorem Tree.update_lane (t : Tree) (v : ℝ) : (t.update v).lane = t.lane := by
  unfold Tree.update
  by_cases h : t.alive = false
  · rw [if_pos h]
  · rw [if_neg h]

/-- The depth of the C8 colliding tree after its update. -/
theorem t1Ex_update_depth :
    (Tree.update t1Ex pAliveEx.velocity).depth =
      1 + 0.03 * (1.1 : ℝ) ^ (1.8 : ℝ) := by
  norm_num [Tree.update, t1Ex, pAliveEx, TREE_BASE_SPEED, TREE_SPEED_MULTIPLIER,
    DEPTH_SPEED_CURVE]

/-- Depth bounds for the C8 colliding tree after its update. -/
theorem t1Ex_update_depth_bounds :
    1 < (Tree.update t1Ex pAliveEx.velocity).depth ∧
      (Tree.update t1Ex pAliveEx.velocity).depth ≤ 2 := by
  rw [t1Ex_update_depth]
  constructor
  · nlinarith [one_lt_rpow_C8]
  · nlinarith [rpow_ub_C8, one_lt_rpow_C8]

/-- The updated C8 colliding tree, as a record. -/
theorem t1Ex_update_eq :
    Tree.update t1Ex pAliveEx.velocity =
      ⟨0, 80, 120, 1 + 0.03 * (1.1 : ℝ) ^ (1.8 : ℝ), true, true⟩ := by
  have hb := t1Ex_update_depth_bounds
  rw [t1Ex_update_depth] at hb
  have hno : ¬ (t1Ex.depth +
      (TREE_BASE_SPEED + pAliveEx.velocity * TREE_SPEED_MULTIPLIER * 0.1) * 0.01 *
        (t1Ex.depth + 0.1) ^ DEPTH_SPEED_CURVE > TREE_MAX_DEPTH) := by
    norm_num [t1Ex, pAliveEx, TREE_BASE_SPEED, TREE_SPEED_MULTIPLIER,
      DEPTH_SPEED_CURVE, TREE_MAX_DEPTH]
    nlinarith [rpow_ub_C8]
  have hge : (1 : ℝ) ≤ t1Ex.depth +
      (TREE_BASE_SPEED + pAliveEx.velocity * TREE_SPEED_MULTIPLIER * 0.1) * 0.01 *
        (t1Ex.depth + 0.1) ^ DEPTH_SPEED_CURVE := by
    norm_num [t1Ex, pAliveEx, TREE_BASE_SPEED, TREE_SPEED_MULTIPLIER,
      DEPTH_SPEED_CURVE]
    nlinarith [one_lt_rpow_C8]
  unfold Tree.update
  rw [if_neg (show ¬ t1Ex.alive = false by norm_num [t1Ex])]
  simp only [Tree.mk.injEq]
  rw [min_eq_right hge, if_neg hno]
  norm_num [t1Ex, pAliveEx, TREE_BASE_SPEED, TREE_SPEED_MULTIPLIER,
    DEPTH_SPEED_CURVE, DEPTH_SCALE_MIN, DEPTH_SCALE_MAX]

/-- The C8 collision fires on the updated tree: the player is alive, the
tree sits in the player's lane at screen distance 50, well inside the
collision radius, and its depth exceeds 0.7. -/
theorem t1Ex_collision :
    pAliveEx.checkTreeCollision gEx (Tree.update t1Ex pAliveEx.velocity) ∧
      (Tree.update t1Ex pAliveEx.velocity).depth > 0.7 := by
  have hb := t1Ex_update_depth_bounds
  rw [t1Ex_update_eq] at hb ⊢
  refine ⟨⟨rfl, ?_⟩, by linarith [hb.1]⟩
  have hx : Tree.getX ⟨0, 80, 120, 1 + 0.03 * (1.1 : ℝ) ^ (1.8 : ℝ), true, true⟩ gEx
      = 600 := by
    norm_num [Tree.getX, PerspectiveGrid.getLaneX, PerspectiveGrid.centerX, gEx]
  have hy : Tree.getY ⟨0, 80, 120, 1 + 0.03 * (1.1 : ℝ) ^ (1.8 : ℝ), true, true⟩
      gEx.screenHeight = 650 := by
    rw [Tree.getY, min_eq_right (by nlinarith [one_lt_rpow_C8] : (1 : ℝ) ≤
      (⟨0, 80, 120, 1 + 0.03 * (1.1 : ℝ) ^ (1.8 : ℝ), true, true⟩ : Tree).depth)]
    norm_num [gEx]
  rw [hx, hy]
  have hs : Real.sqrt (((pAliveEx.x : ℝ) - 600) ^ 2 + (pAliveEx.y - 650) ^ 2) = 50 := by
    rw [show ((pAliveEx.x : ℝ) - 600) ^ 2 + (pAliveEx.y - 650) ^ 2 = 50 ^ 2 by
      norm_num [pAliveEx]]
    exact Real.sqrt_sq (by norm_num)
  rw [hs]
  norm_num [BOARD_LENGTH]
  nlinarith [one_lt_rpow_C8]

/-- The updated C8 colliding tree is already scored, so it cannot pass. -/
theorem t1Ex_no_pass : ¬ (Tree.update t1Ex pAliveEx.velocity).hasPlayerPassed := by
  rw [t1Ex_update_eq]
  intro h
  exact absurd h.2 (by simp)

/-- The first loop iteration of the C8 scenario: the collision kills the
player and deactivates the session, with no score change. -/
theorem c8_step1 :
    treeStep gEx ⟨true, pAliveEx, 0, []⟩ t1Ex =
      ⟨false, pAliveEx.destroy, 0, [Tree.update t1Ex pAliveEx.velocity]⟩ := by
  simp only [treeStep]
  rw [if_neg t1Ex_no_pass, if_pos t1Ex_collision, if_pos t1Ex_collision]
  simp

/-- The second tree of the C8 scenario passes the 0.9 threshold after its
update even though the session is already inactive. -/
theorem t2Ex_passes : (Tree.update t2Ex (pAliveEx.destroy).velocity).hasPlayerPassed := by
  constructor
  · have : (Tree.update t2Ex (pAliveEx.destroy).velocity).depth =
        0.92 + 0.03 * (1.02 : ℝ) ^ (1.8 : ℝ) := by
      norm_num [Tree.update, t2Ex, pAliveEx, Player.destroy, TREE_BASE_SPEED,
        TREE_SPEED_MULTIPLIER, DEPTH_SPEED_CURVE]
    rw [this]
    nlinarith [rpow_nonneg_C8]
  · rw [Tree.update_scored]
    rfl

/-- The dead player cannot collide again in the second iteration. -/
theorem t2Ex_no_hit :
    ¬ ((pAliveEx.destroy).checkTreeCollision gEx
        (Tree.update t2Ex (pAliveEx.destroy).velocity) ∧
      (Tree.update t2Ex (pAliveEx.destroy).velocity).depth > 0.7) := by
  intro h
  have : (false : Bool) = true := h.1.1
  simp at this

/-- Counterexample for C8 as stated: in the very frame whose tree loop kills
the player (first iteration: alive and gameActive drop to false, score still
0), the loop goes on — the second tree is still marked scored and 10 pass
points are added, so scoring is not short-circuited within the collision
frame. -/
theorem c8_counterexample :
    (treeStep gEx ⟨true, pAliveEx, 0, []⟩ t1Ex).gameActive = false ∧
    (treeStep gEx ⟨true, pAliveEx, 0, []⟩ t1Ex).player.alive = false ∧
    (treeStep gEx ⟨true, pAliveEx, 0, []⟩ t1Ex).score = 0 ∧
    ([t1Ex, t2Ex].foldl (treeStep gEx) ⟨true, pAliveEx, 0, []⟩).score = 10 ∧
    (([t1Ex, t2Ex].foldl (treeStep gEx) ⟨true, pAliveEx, 0, []⟩).trees.map
      Tree.scored) = [true, true] ∧
    t2Ex.scored = false := by
  have h2 : [t1Ex, t2Ex].foldl (treeStep gEx) ⟨true, pAliveEx, 0, []⟩ =
      treeStep gEx ⟨false, pAliveEx.destroy, 0,
        [Tree.update t1Ex pAliveEx.velocity]⟩ t2Ex := by
    rw [List.foldl_cons, List.foldl_cons, List.foldl_nil, c8_step1]
  have h3 : treeStep gEx ⟨false, pAliveEx.destroy, 0,
      [Tree.update t1Ex pAliveEx.velocity]⟩ t2Ex =
      ⟨false, pAliveEx.destroy, 0 + 10 * (pAliveEx.destroy).getCarvingBonus,
        [Tree.update t1Ex pAliveEx.velocity,
          (Tree.update t2Ex (pAliveEx.destroy).velocity).markScored]⟩ := by
    simp only [treeStep]
    rw [if_pos t2Ex_passes, if_neg t2Ex_no_hit, if_neg t2Ex_no_hit]
    simp
  refine ⟨?_, ?_, ?_, ?_, ?_, rfl⟩
  · rw [c8_step1]
  · rw [c8_step1]
    rfl
  · rw [c8_step1]
  · rw [h2, h3]
    norm_num [Player.getCarvingBonus, Player.destroy, pAliveEx]
  · rw [h2, h3]
    simp only [List.map_cons, List.map_nil, Tree.update_scored, Tree.markScored]
    rfl

/-- Claim C8 (amended part): once the session is inactive, every following
frame with the restart key up is a complete no-op — no tree is updated or
scored and no points are added, until a restart signal is observed. -/
theorem c8_inactive_frame_is_noop (s : GameState) (inp : FrameInput)
    (h : s.gameActive = false) (hsp : inp.spacePressed = false) :
    GameScene.update s inp = s := by
  rw [GameScene.update, if_pos h, if_neg (by rw [hsp]; exact Bool.false_ne_true)]

/-- Witness for C8's amended statement at the concrete post-collision
scene. -/
theorem c8_witness : GameScene.update sDeadEx inpIdleEx = sDeadEx :=
  c8_inactive_frame_is_noop sDeadEx inpIdleEx rfl rfl

/-- Witness for C7's amended statement at lane 1, depth 0.5. -/
theorem c7_witness :
    (gEx.getLaneX 1 0.5 =
      gEx.centerX + (1 - gEx.playerLaneOffset) *
        ((GRID_WIDTH_FAR + (GRID_WIDTH_NEAR - GRID_WIDTH_FAR) * 0.5) /
          (GRID_COLUMNS - 1)) ∧
      ((0.5:ℝ) ≤ 1 → gEx.getLaneX 1 0.5 = gEx.getLaneXSpec 1 0.5)) ∧
      gEx.getLaneX 1 0.5 = gEx.getLaneXSpec 1 0.5 := by
  refine ⟨c7_laneX_formula gEx 1 0.5, ?_⟩
  exact (c7_laneX_formula gEx 1 0.5).2 (by norm_num)

/-- Claim C9: for an alive player the collision test reports collision
exactly when the distance from the player to the tree's screen position is
below `BOARD_LENGTH/2 + size·depth·0.4`; and the tree loop only acts on it
once the updated depth exceeds the near-field threshold 0.7 — below it the
player and the session are untouched. -/
theorem c9_collision_circle_test (g : PerspectiveGrid) (p : Player) (t : Tree)
    (h : p.alive = true) :
    (p.checkTreeCollision g t ↔
      Real.sqrt ((p.x - t.getX g) ^ 2 + (p.y - t.getY g.screenHeight) ^ 2) <
        BOARD_LENGTH / 2 + t.size * t.depth * 0.4) ∧
    ∀ c : LoopCtx, ¬ ((t.update c.player.velocity).depth > 0.7) →
      (treeStep g c t).player = c.player ∧
        (treeStep g c t).gameActive = c.gameActive := by
  constructor
  · simp [Player.checkTreeCollision, h]
  · intro c hfar
    have hno : ¬ (c.player.checkTreeCollision g (t.update c.player.velocity) ∧
        (t.update c.player.velocity).depth > 0.7) := fun hc => hfar hc.2
    simp only [treeStep, if_neg hno]
    split_ifs <;> exact ⟨rfl, rfl⟩

/-- Witness for C9: the spec's boundary scenario.  The tree at depth 0.9,
size 100 sits at screen distance 105 < 106 from the player — collision; on
the shifted grid its distance is 107.06 = 106 × 1.01 — no collision. -/
theorem c9_witness :
    (pAliveEx.checkTreeCollision gEx t9NearEx ↔
      Real.sqrt ((pAliveEx.x - t9NearEx.getX gEx) ^ 2 +
        (pAliveEx.y - t9NearEx.getY gEx.screenHeight) ^ 2) <
        BOARD_LENGTH / 2 + t9NearEx.size * t9NearEx.depth * 0.4) ∧
    pAliveEx.checkTreeCollision gEx t9NearEx ∧
    ¬ pAliveEx.checkTreeCollision g9FarEx t9NearEx := by
  refine ⟨(c9_collision_circle_test gEx pAliveEx t9NearEx rfl).1, ?_, ?_⟩
  · rw [(c9_collision_circle_test gEx pAliveEx t9NearEx rfl).1]
    have hx : t9NearEx.getX gEx = 600 := by
      norm_num [Tree.getX, PerspectiveGrid.getLaneX, PerspectiveGrid.centerX,
        gEx, t9NearEx]
    have hy : t9NearEx.getY gEx.screenHeight = 595 := by
      norm_num [Tree.getY, gEx, t9NearEx, min_def]
    have hs : Real.sqrt ((pAliveEx.x - 600) ^ 2 + (pAliveEx.y - 595) ^ 2) = 105 := by
      rw [show (pAliveEx.x - 600) ^ 2 + (pAliveEx.y - 595) ^ 2 = 105 ^ 2 by
        norm_num [pAliveEx]]
      exact Real.sqrt_sq (by norm_num)
    rw [hx, hy, hs]
    norm_num [t9NearEx, BOARD_LENGTH]
  · rw [(c9_collision_circle_test g9FarEx pAliveEx t9NearEx rfl).1]
    have hx : t9NearEx.getX g9FarEx = 600 + Real.sqrt 436.8436 := by
      rw [Tree.getX, PerspectiveGrid.getLaneX]
      norm_num [PerspectiveGrid.centerX, g9FarEx, t9NearEx, GRID_WIDTH_FAR,
        GRID_WIDTH_NEAR, GRID_COLUMNS]
    have hy : t9NearEx.getY g9FarEx.screenHeight = 595 := by
      norm_num [Tree.getY, g9FarEx, t9NearEx, min_def]
    have hsq : Real.sqrt 436.8436 ^ 2 = 436.8436 := Real.sq_sqrt (by norm_num)
    have hs : Real.sqrt ((pAliveEx.x - (600 + Real.sqrt 436.8436)) ^ 2 +
        (pAliveEx.y - 595) ^ 2) = 107.06 := by
      rw [show (pAliveEx.x - (600 + Real.sqrt 436.8436)) ^ 2 +
          (pAliveEx.y - 595) ^ 2 = 107.06 ^ 2 by
        have hexp : (pAliveEx.x - (600 + Real.sqrt 436.8436)) ^ 2 =
            Real.sqrt 436.8436 ^ 2 := by
          norm_num [pAliveEx]
        rw [hexp, hsq]; norm_num [pAliveEx]]
      exact Real.sqrt_sq (by norm_num)
    rw [hx, hy, hs]
    norm_num [t9NearEx, BOARD_LENGTH]

/-- The post-push feet of `enforceMinDistance` in its active case. -/
theorem enforceMinDistance_pos (lf rf : Vec2)
    (h1 : 0 < feetDist lf rf) (h2 : feetDist lf rf < MIN_FEET_DISTANCE) :
    enforceMinDistance lf rf =
      (Vec2.mk
        (lf.x - (rf.x - lf.x) / feetDist lf rf *
          (MIN_FEET_DISTANCE - feetDist lf rf) * 0.5)
        (lf.y - (rf.y - lf.y) / feetDist lf rf *
          (MIN_FEET_DISTANCE - feetDist lf rf) * 0.5),
       Vec2.mk
        (rf.x + (rf.x - lf.x) / feetDist lf rf *
          (MIN_FEET_DISTANCE - feetDist lf rf) * 0.5)
        (rf.y + (rf.y - lf.y) / feetDist lf rf *
          (MIN_FEET_DISTANCE - feetDist lf rf) * 0.5)) := by
  rw [enforceMinDistance, if_pos ⟨h2, h1⟩]

/-- Claim C10 (implicit): `InputManager.update` applies the
minimum-separation push after (and on top of) the max-extension clamp; when
the post-clamp feet are a positive distance `d < MIN_FEET_DISTANCE` apart,
the returned feet are exactly `MIN_FEET_DISTANCE` apart, each foot moved by
`(MIN_FEET_DISTANCE − d)/2` along the joining line; and some post-clamp
state (a fixed point of the clamp) is pushed to a right foot farther than
`MAX_LEG_EXTENSION` from the board center, since the clamp is not
re-applied after the push. -/
theorem c10_separation_push_after_clamp :
    (∀ (m : InputManager) (li ri : Vec2),
      (m.update li ri).leftFoot =
        (enforceMinDistance (clampFoot (springFoot m.leftFoot m.leftVelocity li).1)
          (clampFoot (springFoot m.rightFoot m.rightVelocity ri).1)).1 ∧
      (m.update li ri).rightFoot =
        (enforceMinDistance (clampFoot (springFoot m.leftFoot m.leftVelocity li).1)
          (clampFoot (springFoot m.rightFoot m.rightVelocity ri).1)).2) ∧
    (∀ lf rf : Vec2, 0 < feetDist lf rf → feetDist lf rf < MIN_FEET_DISTANCE →
      feetDist (enforceMinDistance lf rf).1 (enforceMinDistance lf rf).2 =
          MIN_FEET_DISTANCE ∧
        feetDist lf (enforceMinDistance lf rf).1 =
          (MIN_FEET_DISTANCE - feetDist lf rf) / 2 ∧
        feetDist rf (enforceMinDistance lf rf).2 =
          (MIN_FEET_DISTANCE - feetDist lf rf) / 2) ∧
    (∃ lf rf : Vec2, clampFoot lf = lf ∧ clampFoot rf = rf ∧
      0 < feetDist lf rf ∧ feetDist lf rf < MIN_FEET_DISTANCE ∧
      MAX_LEG_EXTENSION <
        Real.sqrt ((enforceMinDistance lf rf).2.x ^ 2 +
          (enforceMinDistance lf rf).2.y ^ 2)) := by
  refine ⟨fun m li ri => ⟨rfl, rfl⟩, ?_, ?_⟩
  · intro lf rf h1 h2
    have hd0 : feetDist lf rf ≠ 0 := ne_of_gt h1
    have hd2 : feetDist lf rf ^ 2 = (rf.x - lf.x) ^ 2 + (rf.y - lf.y) ^ 2 :=
      Real.sq_sqrt (by positivity)
    rw [enforceMinDistance_pos lf rf h1 h2]
    refine ⟨?_, ?_, ?_⟩
    · rw [feetDist]
      rw [show (rf.x + (rf.x - lf.x) / feetDist lf rf *
            (MIN_FEET_DISTANCE - feetDist lf rf) * 0.5 -
            (lf.x - (rf.x - lf.x) / feetDist lf rf *
              (MIN_FEET_DISTANCE - feetDist lf rf) * 0.5)) ^ 2 +
          (rf.y + (rf.y - lf.y) / feetDist lf rf *
            (MIN_FEET_DISTANCE - feetDist lf rf) * 0.5 -
            (lf.y - (rf.y - lf.y) / feetDist lf rf *
              (MIN_FEET_DISTANCE - feetDist lf rf) * 0.5)) ^ 2 =
          MIN_FEET_DISTANCE ^ 2 by
        field_simp
        nlinarith [hd2]]
      exact Real.sqrt_sq (by norm_num [MIN_FEET_DISTANCE])
    · rw [feetDist]
      rw [show (lf.x - (rf.x - lf.x) / feetDist lf rf *
            (MIN_FEET_DISTANCE - feetDist lf rf) * 0.5 - lf.x) ^ 2 +
          (lf.y - (rf.y - lf.y) / feetDist lf rf *
            (MIN_FEET_DISTANCE - feetDist lf rf) * 0.5 - lf.y) ^ 2 =
          ((MIN_FEET_DISTANCE - feetDist lf rf) / 2) ^ 2 by
        field_simp
        nlinarith [hd2]]
      exact Real.sqrt_sq (by linarith)
    · rw [feetDist]
      rw [show (rf.x + (rf.x - lf.x) / feetDist lf rf *
            (MIN_FEET_DISTANCE - feetDist lf rf) * 0.5 - rf.x) ^ 2 +
          (rf.y + (rf.y - lf.y) / feetDist lf rf *
            (MIN_FEET_DISTANCE - feetDist lf rf) * 0.5 - rf.y) ^ 2 =
          ((MIN_FEET_DISTANCE - feetDist lf rf) / 2) ^ 2 by
        field_simp
        nlinarith [hd2]]
      exact Real.sqrt_sq (by linarith)
  · refine ⟨⟨-3, 49⟩, ⟨3, 49⟩, ?_, ?_, ?_, ?_, ?_⟩
    all_goals
      have hd6 : feetDist ⟨-3, 49⟩ ⟨3, 49⟩ = 6 := by
        rw [feetDist,
          show ((3 : ℝ) - -3) ^ 2 + ((49 : ℝ) - 49) ^ 2 = 6 ^ 2 by norm_num]
        exact Real.sqrt_sq (by norm_num)
    · rw [clampFoot]
      rw [if_neg]
      rw [show ((-3 : ℝ)) ^ 2 + (49 : ℝ) ^ 2 = 2410 by norm_num]
      intro hgt
      have h50 : Real.sqrt 2410 ≤ 50 := by
        rw [show (50 : ℝ) = Real.sqrt 2500 by
          rw [show (2500 : ℝ) = 50 ^ 2 by norm_num]
          exact (Real.sqrt_sq (by norm_num)).symm]
        exact Real.sqrt_le_sqrt (by norm_num)
      rw [MAX_LEG_EXTENSION] at hgt
      linarith
    · rw [clampFoot]
      rw [if_neg]
      rw [show ((3 : ℝ)) ^ 2 + (49 : ℝ) ^ 2 = 2410 by norm_num]
      intro hgt
      have h50 : Real.sqrt 2410 ≤ 50 := by
        rw [show (50 : ℝ) = Real.sqrt 2500 by
          rw [show (2500 : ℝ) = 50 ^ 2 by norm_num]
          exact (Real.sqrt_sq (by norm_num)).symm]
        exact Real.sqrt_le_sqrt (by norm_num)
      rw [MAX_LEG_EXTENSION] at hgt
      linarith
    · rw [hd6]; norm_num
    · rw [hd6]; norm_num [MIN_FEET_DISTANCE]
    · rw [enforceMinDistance_pos ⟨-3, 49⟩ ⟨3, 49⟩ (by rw [hd6]; norm_num)
        (by rw [hd6]; norm_num [MIN_FEET_DISTANCE])]
      rw [hd6]
      rw [show ((3 : ℝ) + ((3 : ℝ) - -3) / 6 * (MIN_FEET_DISTANCE - 6) * 0.5) ^ 2 +
          ((49 : ℝ) + ((49 : ℝ) - 49) / 6 * (MIN_FEET_DISTANCE - 6) * 0.5) ^ 2 =
          4001 by norm_num [MIN_FEET_DISTANCE]]
      rw [MAX_LEG_EXTENSION]
      have h4001 : Real.sqrt 2500 < Real.sqrt 4001 :=
        Real.sqrt_lt_sqrt (by norm_num) (by norm_num)
      rw [show (2500 : ℝ) = 50 ^ 2 by norm_num, Real.sqrt_sq (by norm_num)] at h4001
      exact h4001

end

end CarveDrifters
